import Mathlib

/-!
Shallow embedding of the website diagnosis tool
(`website_diagnosis_tool.py`, `pdf_report_generator.py`).

Modelling conventions:
* The HTTP fetch / BeautifulSoup parse step is a black box: its output is a
  `PageSnapshot` record holding exactly the element groups the analyzers read
  (document-order heading levels, image alt attributes, anchors, meta tags,
  response headers, …).
* Python string truthiness (`if s:` is false for `None` and `""`) is modelled
  by `truthy` on `Option String`.
* Python float literals (`0.9`, `0.7`, weights) are modelled as exact
  rationals; Python's decimal float formatting inside report strings is
  abstracted by `fmtQ` (those strings carry no scoring decision).
* `json.loads` and the live TLS handshake are external effects: the snapshot
  records their outcomes (`jsonLd : List (Option String)`,
  `tls : Except String TlsCert`).
* String helpers are written over `String.data` (lists of characters) so that
  every definition evaluates by kernel reduction.
-/

set_option maxRecDepth 20000

namespace Diag

/-- Python truthiness of an optional string: `None` and `""` are falsy. -/
def truthy : Option String → Bool
  | none => false
  | some s => !(s == "")

/-- Test whether `pre` is an initial segment of `l` (character lists). -/
def startsL : List Char → List Char → Bool
  | [], _ => true
  | _ :: _, [] => false
  | c :: cs, d :: ds => c == d && startsL cs ds

/-- Python `pre in s` substring test, over character lists. -/
def containsL (needle : List Char) : List Char → Bool
  | [] => needle.isEmpty
  | c :: cs => startsL needle (c :: cs) || containsL needle cs

/-- Python `needle in hay` on strings. -/
def strContainsSub (hay needle : String) : Bool :=
  containsL needle.data hay.data

/-- Python `s.startswith(pre)`. -/
def strStarts (s pre : String) : Bool :=
  startsL pre.data s.data

/-- Python `str.strip()` (whitespace from both ends), kernel-computable. -/
def strTrim (s : String) : String :=
  ⟨(((s.data.dropWhile Char.isWhitespace).reverse.dropWhile Char.isWhitespace).reverse)⟩

/-- Python decimal rendering of a rational inside a report string; the exact
formatting of measured floats carries no scoring decision and is abstracted. -/
def fmtQ (q : ℚ) : String := toString q

/-- Record of the beginner-level explanation attached to a finding
(`what`/`why`/`how`, optionally `risk`). -/
structure Explanation where
  what : String
  why : String
  how : String
  risk : Option String := none
deriving Repr, DecidableEq

/-- One entry of a category's `explanations` list: a fixed short label plus
the static explanation record. -/
structure ExplEntry where
  issue : String
  explanation : Explanation
deriving Repr, DecidableEq

/-- An `<a>` element as the analyzers read it. -/
structure Anchor where
  href : Option String
  text : String
  ariaLabel : Option String
deriving Repr, DecidableEq

/-- An `input`/`textarea`/`select` element. -/
structure FormControl where
  id : Option String
  ariaLabel : Option String
deriving Repr, DecidableEq

/-- Peer-certificate data returned by a successful TLS handshake. -/
structure TlsCert where
  subject : String
  issuer : String
  validFrom : String
  validUntil : String
deriving Repr, DecidableEq

/-- Immutable snapshot of one fetched page: everything
`WebsiteDiagnosisTool` reads from `self.response`, `self.soup`,
`self.parsed_url` and `self.load_time`. -/
structure PageSnapshot where
  url : String
  scheme : String
  domain : String
  /-- `soup.find('title')`: `none` if no title element, otherwise its
  `.string` (which BeautifulSoup reports as `None` when the element has no
  direct string content). -/
  titleTag : Option (Option String)
  /-- all `<meta name=… content=…>` tags in document order. -/
  metaNames : List (String × Option String)
  /-- all `<meta property=… content=…>` tags in document order. -/
  metaProps : List (String × Option String)
  /-- document-order sequence of heading levels (one entry per `<h1>`…`<h6>`
  element). -/
  headings : List ℕ
  /-- alt attribute of each `<img>`, in document order. -/
  images : List (Option String)
  /-- `soup.find('link', rel='canonical')`: presence, and its href. -/
  canonical : Option (Option String)
  /-- all `<a>` elements in document order. -/
  anchors : List Anchor
  /-- outcome of `json.loads` on each `<script type="application/ld+json">`
  body: `none` when parsing raises. -/
  jsonLd : List (Option String)
  /-- response headers. -/
  headers : List (String × String)
  /-- outcome of the live TLS handshake to `domain:443` (consulted only for
  https pages). -/
  tls : Except String TlsCert
  loadTime : ℚ
  pageSize : ℕ
  numScripts : ℕ
  numStylesheets : ℕ
  numIframes : ℕ
  /-- the `<html>` element: presence, and its `lang` attribute. -/
  htmlTag : Option (Option String)
  /-- `for` attributes of all `<label>` elements. -/
  labelFors : List String
  formControls : List FormControl
  numRoleElems : ℕ
  numAriaLabelElems : ℕ
  numMain : ℕ
  numNav : ℕ

/-- `self.response.headers.get(name)` (requests' header map is
case-insensitive). -/
def headerGet (snap : PageSnapshot) (name : String) : Option String :=
  (snap.headers.find? (fun p => p.1.data.map Char.toLower == name.data.map Char.toLower)).map (·.2)

/-- Points and finding lists produced by one sub-check. -/
structure Contribution where
  pts : ℕ
  issues : List String
  success : List String
  explanations : List ExplEntry
deriving Repr, DecidableEq

/-- Concatenation of two sub-check contributions, in source order. -/
def Contribution.append (a b : Contribution) : Contribution :=
  ⟨a.pts + b.pts, a.issues ++ b.issues, a.success ++ b.success,
   a.explanations ++ b.explanations⟩

/-- Fold a list of sub-check contributions in order. -/
def combine : List Contribution → Contribution
  | [] => ⟨0, [], [], []⟩
  | c :: cs => c.append (combine cs)

/-! Static explanation records from `_get_explanations` (verbatim). -/

/-- Explanation `seo.title`. -/
def seoTitleExpl : Explanation :=
  { what := "タイトルタグは、ブラウザのタブやGoogle検索結果に表示される「ページのタイトル」です。"
    why := "わかりやすいタイトルがあると、検索結果でクリックされやすくなります。"
    how := "タイトルは30〜60文字が最適です。会社名やページの内容を簡潔に書きましょう。" }

/-- Explanation `seo.meta_description`. -/
def seoMetaDescriptionExpl : Explanation :=
  { what := "メタディスクリプションは、Google検索結果でタイトルの下に表示される「説明文」です。"
    why := "魅力的な説明文があると、検索結果からのアクセスが増えます。"
    how := "120〜160文字で、ページの内容を簡潔に説明しましょう。" }

/-- Explanation `seo.h1`. -/
def seoH1Expl : Explanation :=
  { what := "H1タグは、ページの「大見出し」です。新聞の1面の大きな見出しのようなものです。"
    why := "Googleがページの内容を理解するための重要な手がかりになります。"
    how := "H1タグは1ページに1つだけ配置し、ページの内容を表す見出しにしましょう。" }

/-- Explanation `seo.alt`. -/
def seoAltExpl : Explanation :=
  { what := "alt属性は、画像の「説明文」です。画像が表示されない時や、目の不自由な方のために使われます。"
    why := "Googleは画像の内容を理解できないので、alt属性で説明する必要があります。"
    how := "各画像に「何の画像か」を簡潔に説明する文章を付けましょう。" }

/-- Explanation `security.https`. -/
def secHttpsExpl : Explanation :=
  { what := "HTTPSは、ウェブサイトとの通信を「暗号化」する技術です。南京錠のマークが表示されます。"
    why := "HTTPSがないと、入力した情報（パスワードやクレジットカード番号など）が盗まれる危険があります。"
    how := "サーバー会社に「SSL証明書」を申請してインストールする必要があります（多くは無料）。"
    risk := some "【危険度：高】HTTPSがないサイトは、Googleが「安全でない」と警告を表示します。" }

/-- Explanation `security.strict_transport_security`. -/
def secStsExpl : Explanation :=
  { what := "HSTS（HTTP Strict Transport Security）は、「必ずHTTPSで接続する」という指示です。"
    why := "悪意のある人が、HTTPSをHTTPに変えて情報を盗む攻撃を防ぎます。"
    how := "サーバーの設定で「Strict-Transport-Security」ヘッダーを追加します。"
    risk := some "【危険度：中】HTTPSを使っていても、この設定がないと一部の攻撃を防げません。" }

/-- Explanation `security.x_frame_options`. -/
def secXfoExpl : Explanation :=
  { what := "X-Frame-Optionsは、「他のサイトに埋め込まれるのを防ぐ」設定です。"
    why := "悪意のあるサイトがあなたのサイトを埋め込んで、ユーザーを騙す攻撃（クリックジャッキング）を防ぎます。"
    how := "サーバーの設定で「X-Frame-Options: DENY」または「SAMEORIGIN」を追加します。"
    risk := some "【危険度：中】この設定がないと、偽のログイン画面などに悪用される可能性があります。" }

/-- Explanation `security.content_security_policy`. -/
def secCspExpl : Explanation :=
  { what := "CSP（Content Security Policy）は、「どこからスクリプトを読み込むか」を制限する設定です。"
    why := "悪意のあるスクリプトが勝手に実行されるのを防ぎます（XSS攻撃対策）。"
    how := "サーバーの設定で「Content-Security-Policy」ヘッダーを追加します。"
    risk := some "【危険度：中〜高】この設定がないと、サイトに不正なコードを埋め込まれる危険があります。" }

/-- Explanation `performance.load_time`. -/
def perfLoadTimeExpl : Explanation :=
  { what := "ページ読み込み時間は、サイトが表示されるまでにかかる時間です。"
    why := "読み込みが遅いと、ユーザーが待ちきれずに離脱してしまいます（3秒以上で半数が離脱）。"
    how := "画像を圧縮する、不要なスクリプトを削除する、サーバーを高速化するなどの方法があります。" }

/-- Explanation `performance.page_size`. -/
def perfPageSizeExpl : Explanation :=
  { what := "ページサイズは、ウェブページ全体のデータ量（MB）です。"
    why := "ページサイズが大きいと、読み込みに時間がかかり、スマホのデータ通信量も増えます。"
    how := "画像を圧縮する、不要なコードを削除する、動画は外部サービスを使うなど。" }

/-- Explanation `performance.compression`. -/
def perfCompressionExpl : Explanation :=
  { what := "圧縮は、データを「zip形式」のように小さくして送る技術です。"
    why := "圧縮すると、データ量が50〜70%減少し、読み込みが速くなります。"
    how := "サーバーの設定で「Gzip圧縮」または「Brotli圧縮」を有効にします。" }

/-- Explanation `accessibility.lang`. -/
def accLangExpl : Explanation :=
  { what := "lang属性は、「このページは何語で書かれているか」を示すものです。"
    why := "目の不自由な方が使う「読み上げソフト」が、正しい発音で読み上げるために必要です。"
    how := "HTMLの最初に <html lang=\"ja\"> のように言語を指定します（日本語は\"ja\"）。" }

/-- Explanation `accessibility.main_landmark`. -/
def accMainLandmarkExpl : Explanation :=
  { what := "mainランドマークは、「ページのメインコンテンツはここ」という目印です。"
    why := "目の不自由な方が、読み上げソフトで「本文にジャンプ」できるようになります。"
    how := "メインコンテンツを <main> タグで囲みます。" }

/-! SEO analyzer (`diagnose_seo`). -/

/-- Title check: the stored `title` field and the title sub-check result. -/
def seoTitle (snap : PageSnapshot) : Option String × Contribution :=
  match snap.titleTag with
  | some (some s) =>
    if s == "" then
      (none, ⟨0, ["Title tag not found"], [], [⟨"Title tag missing", seoTitleExpl⟩]⟩)
    else
      let t := strTrim s
      if 30 ≤ t.length ∧ t.length ≤ 60 then
        (some t, ⟨15, [], ["Title tag is configured (" ++ toString t.length ++ " chars)"], []⟩)
      else
        (some t, ⟨0,
          ["Title length is not optimal (current: " ++ toString t.length ++
            " chars, recommended: 30-60 chars)"], [],
          [⟨"Title length", seoTitleExpl⟩]⟩)
  | _ => (none, ⟨0, ["Title tag not found"], [], [⟨"Title tag missing", seoTitleExpl⟩]⟩)

/-- Meta description check. -/
def seoMetaDescription (snap : PageSnapshot) : Option String × Contribution :=
  match snap.metaNames.find? (fun p => p.1 == "description") with
  | some (_, some c) =>
    if c == "" then
      (none, ⟨0, ["Meta description not found"], [],
        [⟨"Meta description missing", seoMetaDescriptionExpl⟩]⟩)
    else
      let d := strTrim c
      if 120 ≤ d.length ∧ d.length ≤ 160 then
        (some d, ⟨15, [], ["Meta description is configured (" ++ toString d.length ++ " chars)"], []⟩)
      else
        (some d, ⟨0,
          ["Meta description length is not optimal (current: " ++ toString d.length ++
            " chars, recommended: 120-160 chars)"], [],
          [⟨"Meta description length", seoMetaDescriptionExpl⟩]⟩)
  | _ => (none, ⟨0, ["Meta description not found"], [],
      [⟨"Meta description missing", seoMetaDescriptionExpl⟩]⟩)

/-- H1 count check. -/
def seoH1 (snap : PageSnapshot) : Contribution :=
  let n := snap.headings.count 1
  if n = 1 then ⟨10, [], ["Single H1 tag found"], []⟩
  else if n = 0 then ⟨0, ["H1 tag not found"], [], [⟨"H1 tag missing", seoH1Expl⟩]⟩
  else ⟨0, ["Multiple H1 tags found (" ++ toString n ++ ")"], [],
    [⟨"Multiple H1 tags", seoH1Expl⟩]⟩

/-- H2 presence check (no success entry in the source). -/
def seoH2 (snap : PageSnapshot) : Contribution :=
  if snap.headings.count 2 ≠ 0 then ⟨5, [], [], []⟩
  else ⟨0, ["H2 tag not found"], [], []⟩

/-- Number of images whose alt attribute is truthy. -/
def imagesWithAlt (snap : PageSnapshot) : ℕ :=
  snap.images.countP truthy

/-- Image alt-coverage check of the SEO analyzer. -/
def seoAlt (snap : PageSnapshot) : Contribution :=
  let t := snap.images.length
  let w := imagesWithAlt snap
  if 0 < t then
    let r : ℚ := (w : ℚ) / (t : ℚ)
    if 9/10 ≤ r then
      ⟨15, [], ["Most images have alt attributes (" ++ toString w ++ "/" ++ toString t ++ ")"], []⟩
    else if 7/10 ≤ r then
      ⟨10, ["Some images missing alt attributes (" ++ toString w ++ "/" ++ toString t ++ ")"], [],
        [⟨"Missing alt attributes", seoAltExpl⟩]⟩
    else
      ⟨0, ["Many images missing alt attributes (" ++ toString w ++ "/" ++ toString t ++ ")"], [],
        [⟨"Missing alt attributes", seoAltExpl⟩]⟩
  else ⟨0, [], [], []⟩

/-- Meta tags whose `property` matches `^og:`. -/
def ogTags (snap : PageSnapshot) : List (String × Option String) :=
  snap.metaProps.filter (fun p => strStarts p.1 "og:")

/-- Open Graph presence check. -/
def seoOpenGraph (snap : PageSnapshot) : Contribution :=
  if (ogTags snap).isEmpty then ⟨0, [], [], []⟩
  else ⟨10, [], ["Open Graph tags configured"], []⟩

/-- Meta tags whose `name` matches `^twitter:`. -/
def twitterTags (snap : PageSnapshot) : List (String × Option String) :=
  snap.metaNames.filter (fun p => strStarts p.1 "twitter:")

/-- Twitter Card presence check. -/
def seoTwitter (snap : PageSnapshot) : Contribution :=
  if (twitterTags snap).isEmpty then ⟨0, [], [], []⟩
  else ⟨5, [], ["Twitter Card tags configured"], []⟩

/-- Canonical link presence check. -/
def seoCanonical (snap : PageSnapshot) : Contribution :=
  if snap.canonical.isSome then ⟨5, [], ["Canonical tag configured"], []⟩
  else ⟨0, [], [], []⟩

/-- hrefs of all anchors carrying an href attribute. -/
def anchorHrefs (snap : PageSnapshot) : List String :=
  snap.anchors.filterMap Anchor.href

/-- Internal links: absolute links containing the domain, or root-relative links. -/
def internalLinks (snap : PageSnapshot) : List String :=
  (anchorHrefs snap).filter
    (fun h => if strStarts h "http" then strContainsSub h snap.domain else strStarts h "/")

/-- External links: absolute links not containing the domain. -/
def externalLinks (snap : PageSnapshot) : List String :=
  (anchorHrefs snap).filter
    (fun h => strStarts h "http" && !strContainsSub h snap.domain)

/-- Internal link presence check. -/
def seoInternalLinks (snap : PageSnapshot) : Contribution :=
  if 0 < (internalLinks snap).length then
    ⟨5, [], ["Internal links found (" ++ toString (internalLinks snap).length ++ ")"], []⟩
  else ⟨0, [], [], []⟩

/-- JSON-LD blocks that parse successfully. -/
def structuredData (snap : PageSnapshot) : List String :=
  snap.jsonLd.filterMap id

/-- Structured data presence check. -/
def seoStructuredData (snap : PageSnapshot) : Contribution :=
  if structuredData snap = [] then ⟨0, [], [], []⟩
  else ⟨10, [], ["Structured data found"], []⟩

/-- The `results['seo']` record (report-only sub-dictionaries such as the
heading texts are omitted; they carry no scoring decision). -/
structure SeoResult where
  title : Option String
  metaDescription : Option String
  totalImages : ℕ
  imagesWithAlt : ℕ
  internalLinksCount : ℕ
  externalLinksCount : ℕ
  score : ℕ
  issues : List String
  success : List String
  explanations : List ExplEntry
deriving Repr, DecidableEq

/-- The SEO analyzer: sub-checks run in source order, the score is the
clamped sum of awarded points. -/
def diagnose_seo (snap : PageSnapshot) : SeoResult :=
  let tc := seoTitle snap
  let mc := seoMetaDescription snap
  let all := combine [tc.2, mc.2, seoH1 snap, seoH2 snap, seoAlt snap,
    seoOpenGraph snap, seoTwitter snap, seoCanonical snap,
    seoInternalLinks snap, seoStructuredData snap]
  { title := tc.1
    metaDescription := mc.1
    totalImages := snap.images.length
    imagesWithAlt := imagesWithAlt snap
    internalLinksCount := (internalLinks snap).length
    externalLinksCount := (externalLinks snap).length
    score := min all.pts 100
    issues := all.issues
    success := all.success
    explanations := all.explanations }

/-! Security analyzer (`diagnose_security`). -/

/-- HTTPS scheme check. -/
def secHttps (snap : PageSnapshot) : Contribution :=
  if snap.scheme == "https" then ⟨30, [], ["HTTPS enabled"], []⟩
  else ⟨0, ["HTTPS not enabled (security risk)"], [],
    [⟨"HTTPS not enabled", secHttpsExpl⟩]⟩

/-- The seven checked security headers with their point values
(`header_scores`). -/
def securityHeaderNames : List (String × ℕ) :=
  [("Strict-Transport-Security", 15), ("X-Frame-Options", 10),
   ("X-Content-Type-Options", 10), ("X-XSS-Protection", 5),
   ("Content-Security-Policy", 20), ("Referrer-Policy", 5),
   ("Permissions-Policy", 5)]

/-- `header_explanations`: only the three headers judged high-impact carry an
explanation record. -/
def securityHeaderExpl (name : String) : Option Explanation :=
  if name == "Strict-Transport-Security" then some secStsExpl
  else if name == "X-Frame-Options" then some secXfoExpl
  else if name == "Content-Security-Policy" then some secCspExpl
  else none

/-- One iteration of the `for header, value in security_headers.items()` loop. -/
def secHeaderCheck (snap : PageSnapshot) (nm : String) (pts : ℕ) : Contribution :=
  if truthy (headerGet snap nm) then
    ⟨pts, [], [nm ++ " header configured"], []⟩
  else
    ⟨0, [nm ++ " header not set"], [],
      match securityHeaderExpl nm with
      | some e => [⟨nm ++ " missing", e⟩]
      | none => []⟩

/-- The whole header loop, in dictionary insertion order. -/
def secHeaders (snap : PageSnapshot) : Contribution :=
  combine (securityHeaderNames.map (fun p => secHeaderCheck snap p.1 p.2))

/-- SSL-certificate sub-check (only for https pages); any handshake failure
is recorded as an issue and absorbed. -/
def secTls (snap : PageSnapshot) : Contribution × Option TlsCert :=
  if snap.scheme == "https" then
    match snap.tls with
    | .ok cert => (⟨0, [], ["Valid SSL certificate"], []⟩, some cert)
    | .error e => (⟨0, ["SSL certificate check failed: " ++ e], [], []⟩, none)
  else (⟨0, [], [], []⟩, none)

/-- The `results['security']` record. -/
structure SecurityResult where
  https : Bool
  sslCertificate : Option TlsCert
  score : ℕ
  issues : List String
  success : List String
  explanations : List ExplEntry
deriving Repr, DecidableEq

/-- The Security analyzer. -/
def diagnose_security (snap : PageSnapshot) : SecurityResult :=
  let tls := secTls snap
  let all := combine [secHttps snap, secHeaders snap, tls.1]
  { https := snap.scheme == "https"
    sslCertificate := tls.2
    score := min all.pts 100
    issues := all.issues
    success := all.success
    explanations := all.explanations }

/-! Performance analyzer (`diagnose_performance`). -/

/-- Load-time tier check. -/
def perfLoad (snap : PageSnapshot) : Contribution :=
  if snap.loadTime < 1 then
    ⟨30, [], ["Fast page load time (" ++ fmtQ snap.loadTime ++ "s)"], []⟩
  else if snap.loadTime < 2 then
    ⟨20, ["Page load time is slightly slow (" ++ fmtQ snap.loadTime ++ "s)"], [],
      [⟨"Slow load time", perfLoadTimeExpl⟩]⟩
  else if snap.loadTime < 3 then
    ⟨10, ["Page load time is slow (" ++ fmtQ snap.loadTime ++ "s)"], [],
      [⟨"Slow load time", perfLoadTimeExpl⟩]⟩
  else
    ⟨0, ["Page load time is very slow (" ++ fmtQ snap.loadTime ++ "s)"], [],
      [⟨"Very slow load time", perfLoadTimeExpl⟩]⟩

/-- Page-size tier check. -/
def perfSize (snap : PageSnapshot) : Contribution :=
  if snap.pageSize < 500 * 1024 then
    ⟨20, [], ["Appropriate page size (" ++ fmtQ ((snap.pageSize : ℚ) / 1024) ++ "KB)"], []⟩
  else if snap.pageSize < 1024 * 1024 then
    ⟨15, ["Page size is slightly large (" ++ fmtQ ((snap.pageSize : ℚ) / 1024) ++ "KB)"], [],
      [⟨"Large page size", perfPageSizeExpl⟩]⟩
  else if snap.pageSize < 3 * 1024 * 1024 then
    ⟨5, ["Page size is large (" ++ fmtQ ((snap.pageSize : ℚ) / 1024 / 1024) ++ "MB)"], [],
      [⟨"Large page size", perfPageSizeExpl⟩]⟩
  else
    ⟨0, ["Page size is very large (" ++ fmtQ ((snap.pageSize : ℚ) / 1024 / 1024) ++ "MB)"], [],
      [⟨"Very large page size", perfPageSizeExpl⟩]⟩

/-- Counted page resources: scripts, stylesheets, images, iframes. -/
def totalResources (snap : PageSnapshot) : ℕ :=
  snap.numScripts + snap.numStylesheets + snap.images.length + snap.numIframes

/-- Resource-count tier check. -/
def perfResources (snap : PageSnapshot) : Contribution :=
  let n := totalResources snap
  if n < 30 then ⟨15, [], ["Appropriate number of resources (" ++ toString n ++ ")"], []⟩
  else if n < 50 then ⟨10, [], ["Moderate number of resources (" ++ toString n ++ ")"], []⟩
  else ⟨0, ["Too many resources (total: " ++ toString n ++ ")"], [], []⟩

/-- Content-encoding check (`gzip`/`br`/`deflate`). -/
def perfCompression (snap : PageSnapshot) : Contribution :=
  match headerGet snap "Content-Encoding" with
  | some s =>
    if s == "gzip" || s == "br" || s == "deflate" then
      ⟨15, [], ["Content compression enabled (" ++ s ++ ")"], []⟩
    else
      ⟨0, ["Content compression not enabled"], [], [⟨"No compression", perfCompressionExpl⟩]⟩
  | none =>
    ⟨0, ["Content compression not enabled"], [], [⟨"No compression", perfCompressionExpl⟩]⟩

/-- Cache-Control presence check. -/
def perfCache (snap : PageSnapshot) : Contribution :=
  if truthy (headerGet snap "Cache-Control") then
    ⟨10, [], ["Cache-Control header configured"], []⟩
  else ⟨0, ["Cache-Control header not set"], [], []⟩

/-- The `results['performance']` record. -/
structure PerfResult where
  loadTime : ℚ
  pageSizeBytes : ℕ
  compression : Option String
  cacheControl : Option String
  score : ℕ
  issues : List String
  success : List String
  explanations : List ExplEntry
deriving Repr, DecidableEq

/-- The Performance analyzer. -/
def diagnose_performance (snap : PageSnapshot) : PerfResult :=
  let all := combine [perfLoad snap, perfSize snap, perfResources snap,
    perfCompression snap, perfCache snap]
  { loadTime := snap.loadTime
    pageSizeBytes := snap.pageSize
    compression := headerGet snap "Content-Encoding"
    cacheControl := headerGet snap "Cache-Control"
    score := min all.pts 100
    issues := all.issues
    success := all.success
    explanations := all.explanations }

/-! Accessibility analyzer (`diagnose_accessibility`). -/

/-- Lang-attribute check. -/
def accLang (snap : PageSnapshot) : Contribution :=
  let lang : Option String := match snap.htmlTag with
    | some l => l
    | none => none
  match lang with
  | some v =>
    if v == "" then
      ⟨0, ["HTML element missing lang attribute"], [], [⟨"Missing lang attribute", accLangExpl⟩]⟩
    else
      ⟨15, [], ["HTML lang attribute present (" ++ v ++ ")"], []⟩
  | none =>
    ⟨0, ["HTML element missing lang attribute"], [], [⟨"Missing lang attribute", accLangExpl⟩]⟩

/-- Number of images with a falsy alt attribute. -/
def imagesWithoutAlt (snap : PageSnapshot) : ℕ :=
  snap.images.countP (fun a => !truthy a)

/-- Image alt-coverage check of the Accessibility analyzer (independent of
the SEO one, with its own tiers). -/
def accAlt (snap : PageSnapshot) : Contribution :=
  let t := snap.images.length
  let wo := imagesWithoutAlt snap
  if 0 < t then
    let r : ℚ := ((t - wo : ℕ) : ℚ) / (t : ℚ)
    if r = 1 then ⟨20, [], ["All images have alt attributes"], []⟩
    else if 8/10 ≤ r then
      ⟨15, [toString wo ++ " images missing alt attributes"], [], []⟩
    else
      ⟨0, ["Many images missing alt attributes (" ++ toString wo ++ "/" ++ toString t ++ ")"],
        [], []⟩
  else ⟨0, [], [], []⟩

/-- Whether a form control counts as labeled: an associated
`<label for=id>`, otherwise an aria-label. -/
def controlLabeled (snap : PageSnapshot) (c : FormControl) : Bool :=
  if truthy c.id && snap.labelFors.contains (c.id.getD "") then true
  else truthy c.ariaLabel

/-- Number of labeled form controls. -/
def inputsWithLabels (snap : PageSnapshot) : ℕ :=
  snap.formControls.countP (controlLabeled snap)

/-- Form-label coverage check. -/
def accForms (snap : PageSnapshot) : Contribution :=
  let t := snap.formControls.length
  let l := inputsWithLabels snap
  if 0 < t then
    if l = t then ⟨15, [], ["All form elements have labels"], []⟩
    else if (t : ℚ) * (7/10) ≤ (l : ℚ) then
      ⟨10, ["Some form elements missing labels (" ++ toString l ++ "/" ++ toString t ++ ")"],
        [], []⟩
    else
      ⟨0, ["Many form elements missing labels (" ++ toString l ++ "/" ++ toString t ++ ")"],
        [], []⟩
  else ⟨0, [], [], []⟩

/-- ARIA attribute usage check. -/
def accAria (snap : PageSnapshot) : Contribution :=
  if 0 < snap.numRoleElems ∨ 0 < snap.numAriaLabelElems then
    ⟨10, [], ["ARIA attributes used (" ++ toString snap.numRoleElems ++ " roles, " ++
      toString snap.numAriaLabelElems ++ " labels)"], []⟩
  else ⟨0, [], [], []⟩

/-- Main-landmark check. -/
def accMain (snap : PageSnapshot) : Contribution :=
  if 0 < snap.numMain then ⟨10, [], ["Main landmark found"], []⟩
  else ⟨0, ["Main landmark not found"], [],
    [⟨"Missing main landmark", accMainLandmarkExpl⟩]⟩

/-- Nav-landmark check (no penalty when absent). -/
def accNav (snap : PageSnapshot) : Contribution :=
  if 0 < snap.numNav then ⟨5, [], ["Navigation landmark found"], []⟩
  else ⟨0, [], [], []⟩

/-- The `headings_order` list: the source iterates `h1`…`h6` level by level
and appends the level once per element of that level (so the produced
sequence is grouped by level, not in document order). -/
def headingsOrder (snap : PageSnapshot) : List ℕ :=
  (List.range' 1 6).flatMap (fun i => snap.headings.filter (fun h => decide (h = i)))

/-- Whether some adjacent pair of the sequence jumps by more than one level. -/
def hasSkip (l : List ℕ) : Bool :=
  (l.zip l.tail).any (fun p => decide ((1 : ℤ) < (p.2 : ℤ) - (p.1 : ℤ)))

/-- Heading-hierarchy tiers applied to a level sequence. -/
def headingTiers (l : List ℕ) : Contribution :=
  if !hasSkip l && 0 < l.length then ⟨10, [], ["Proper heading hierarchy"], []⟩
  else if hasSkip l then
    ⟨0, ["Heading hierarchy issues (e.g., h4 after h2)"], [], []⟩
  else ⟨0, [], [], []⟩

/-- Heading-hierarchy check as the source performs it: on the
level-grouped `headings_order` sequence. -/
def accHeadingCheck (snap : PageSnapshot) : Contribution :=
  headingTiers (headingsOrder snap)

/-- Links that are empty for assistive technology: no visible text and no
aria-label. -/
def emptyLinks (snap : PageSnapshot) : ℕ :=
  snap.anchors.countP (fun a => strTrim a.text == "" && !truthy a.ariaLabel)

/-- Link-text check. -/
def accLinks (snap : PageSnapshot) : Contribution :=
  let e := emptyLinks snap
  if e = 0 ∧ 0 < snap.anchors.length then ⟨10, [], ["All links have text"], []⟩
  else if 0 < e then ⟨0, [toString e ++ " links without text"], [], []⟩
  else ⟨0, [], [], []⟩

/-- The `results['accessibility']` record. -/
structure AccessResult where
  langAttribute : Option String
  imagesWithoutAltCount : ℕ
  formInputsCount : ℕ
  inputsWithLabels : ℕ
  emptyLinksCount : ℕ
  score : ℕ
  issues : List String
  success : List String
  explanations : List ExplEntry
deriving Repr, DecidableEq

/-- The Accessibility analyzer. -/
def diagnose_accessibility (snap : PageSnapshot) : AccessResult :=
  let all := combine [accLang snap, accAlt snap, accForms snap, accAria snap,
    accMain snap, accNav snap, accHeadingCheck snap, accLinks snap]
  { langAttribute := match snap.htmlTag with
      | some l => l
      | none => none
    imagesWithoutAltCount := imagesWithoutAlt snap
    formInputsCount := snap.formControls.length
    inputsWithLabels := inputsWithLabels snap
    emptyLinksCount := emptyLinks snap
    score := min all.pts 100
    issues := all.issues
    success := all.success
    explanations := all.explanations }

/-! Aggregator (`calculate_overall_score`) and engine entry point
(`run_diagnosis`). -/

/-- Round-half-to-even on a rational, as Python's builtin `round` behaves on
exact values. -/
def roundHalfEven (x : ℚ) : ℤ :=
  let f := ⌊x⌋
  let r := x - (f : ℚ)
  if r < 1/2 then f
  else if 1/2 < r then f + 1
  else if Even f then f else f + 1

/-- Python `round(x, 1)`. -/
def pyRound1 (x : ℚ) : ℚ :=
  ((roundHalfEven (10 * x) : ℤ) : ℚ) / 10

/-- `calculate_overall_score`: the fixed category weights applied to the four
stored scores, rounded to one decimal place. -/
def calculate_overall_score (seo security performance accessibility : ℕ) : ℚ :=
  pyRound1 ((seo : ℚ) * (3/10) + (security : ℚ) * (3/10) +
    (performance : ℚ) * (2/10) + (accessibility : ℚ) * (2/10))

/-- The assembled `results` record (the wall-clock timestamp field is
omitted). -/
structure DiagnosisResult where
  url : String
  seo : SeoResult
  security : SecurityResult
  performance : PerfResult
  accessibility : AccessResult
  overall_score : ℚ
  scores : ℕ × ℕ × ℕ × ℕ
deriving Repr, DecidableEq

/-- Body of a successful diagnosis run: the four analyzers followed by the
aggregator. -/
def buildResult (snap : PageSnapshot) : DiagnosisResult :=
  let seo := diagnose_seo snap
  let security := diagnose_security snap
  let performance := diagnose_performance snap
  let accessibility := diagnose_accessibility snap
  { url := snap.url
    seo := seo
    security := security
    performance := performance
    accessibility := accessibility
    overall_score := calculate_overall_score seo.score security.score
      performance.score accessibility.score
    scores := (seo.score, security.score, performance.score, accessibility.score) }

/-- A failure of the page fetch (`requests.get` raising, timeouts,
connection errors). -/
structure FetchError where
  msg : String
deriving Repr, DecidableEq

/-- `run_diagnosis`: the fetch outcome is the input; the source wraps the
fetch in `try/except Exception` and returns `None` on any fetch failure, so
no exception ever escapes (the `Except` layer of the result witnesses that
the function returns normally on every input). -/
def run_diagnosis (fetch : Except FetchError PageSnapshot) :
    Except FetchError (Option DiagnosisResult) :=
  match fetch with
  | .error _ => .ok none
  | .ok snap => .ok (some (buildResult snap))

/-! Recommendation ranker (`PDFReportGenerator._add_recommendations`). -/

/-- One category as the ranker reads it from the results record. -/
structure CatInput where
  name : String
  score : ℕ
  issues : List String
deriving Repr, DecidableEq

/-- One row of the priority table. -/
structure RecEntry where
  priority : ℕ
  category : String
  issue : String
deriving Repr, DecidableEq

/-- The `categories` list in its source insertion order. -/
def recCategories (r : DiagnosisResult) : List CatInput :=
  [⟨"Security", r.security.score, r.security.issues⟩,
   ⟨"Accessibility", r.accessibility.score, r.accessibility.issues⟩,
   ⟨"SEO", r.seo.score, r.seo.issues⟩,
   ⟨"Performance", r.performance.score, r.performance.issues⟩]

/-- Comparison used by `sorted(categories, key=lambda x: x[2]['score'])`. -/
def catLe (a b : CatInput) : Prop := a.score ≤ b.score

instance : DecidableRel catLe := fun a b => Nat.decLe a.score b.score

instance : IsTotal CatInput catLe := ⟨fun a b => Nat.le_total a.score b.score⟩

instance : IsTrans CatInput catLe := ⟨fun _ _ _ h h' => Nat.le_trans h h'⟩

/-- Python's `sorted` is a stable sort; modelled by stable insertion sort. -/
def categoriesSorted (cats : List CatInput) : List CatInput :=
  List.insertionSort catLe cats

/-- Up to the first three issues of one category, tagged with its name. -/
def catBlock (c : CatInput) : List (String × String) :=
  if c.issues.isEmpty then [] else (c.issues.take 3).map (fun i => (c.name, i))

/-- Sequential 1-based priority numbering of the collected issues. -/
def numberFrom : ℕ → List (String × String) → List RecEntry
  | _, [] => []
  | p, (c, i) :: rest => ⟨p, c, i⟩ :: numberFrom (p + 1) rest

/-- The `all_issues` list: categories sorted ascending by score (stable),
up to three issues each, numbered sequentially from 1. -/
def rankIssues (cats : List CatInput) : List RecEntry :=
  numberFrom 1 ((categoriesSorted cats).map catBlock).flatten

/-- The rows actually rendered: the first ten entries. -/
def recTop (cats : List CatInput) : List RecEntry :=
  (rankIssues cats).take 10

/-- Priority label of a rendered row. -/
def prioritySymbol (p : ℕ) : String :=
  if p ≤ 3 then "HIGH" else if p ≤ 6 then "MED" else "LOW"

/-- Python `issue[:60] + ('...' if len(issue) > 60 else '')`. -/
def shorten (s : String) : String :=
  ⟨s.data.take 60⟩ ++ (if 60 < s.length then "..." else "")

/-- The rendered `rec_data` rows (without the header row). -/
def recRows (cats : List CatInput) : List (List String) :=
  (recTop cats).map (fun e =>
    [prioritySymbol e.priority ++ " " ++ toString e.priority, e.category, shorten e.issue])

/-- The ranker applied to a diagnosis result. -/
def addRecommendations (r : DiagnosisResult) : List RecEntry :=
  recTop (recCategories r)

/-! Definitions modelled from the specification's words (for comparison with
the source embedding above). -/

/-- Heading check as the specification words it: the tiers applied to the
document-order heading sequence itself. -/
def specHeadingCheckDocumentOrder (snap : PageSnapshot) : Contribution :=
  headingTiers snap.headings

/-- Category weights of the specification's ranker
(Security 1.5, Accessibility 1.3, SEO 1.2, Performance 1.0). -/
def specCategoryWeight (name : String) : ℚ :=
  if name == "Security" then 3/2
  else if name == "Accessibility" then 13/10
  else if name == "SEO" then 6/5
  else 1

/-- A ranked entry of the specification's ranker. -/
structure SpecRecEntry where
  rank : ℕ
  category : String
  issue : String
  priority : ℚ
deriving Repr, DecidableEq

/-- The specification's issue pool: every issue of every category, tagged
with `(100 − category_score) × category_weight`. -/
def specPool (cats : List CatInput) : List (String × String × ℚ) :=
  cats.flatMap (fun c =>
    c.issues.map (fun i => (c.name, i, (100 - (c.score : ℚ)) * specCategoryWeight c.name)))

/-- Descending-priority comparison of pooled issues. -/
def specGe (a b : String × String × ℚ) : Prop := b.2.2 ≤ a.2.2

instance : DecidableRel specGe := fun a b => inferInstanceAs (Decidable (b.2.2 ≤ a.2.2))

/-- 1-based rank numbering of the specification's sorted pool. -/
def specNumber : ℕ → List (String × String × ℚ) → List SpecRecEntry
  | _, [] => []
  | p, (c, i, q) :: rest => ⟨p, c, i, q⟩ :: specNumber (p + 1) rest

/-- The ranker as the specification describes it: pool all issues, stable
sort descending by priority, return the top ten with 1-based rank. -/
def specRankerTop10 (cats : List CatInput) : List SpecRecEntry :=
  specNumber 1 ((List.insertionSort specGe (specPool cats)).take 10)

/-! Concrete snapshots used to instantiate the theorems. -/

/-- A minimal https snapshot; individual tests override the fields they
exercise. -/
def baseSnap : PageSnapshot :=
  { url := "https://example.com/"
    scheme := "https"
    domain := "example.com"
    titleTag := none
    metaNames := []
    metaProps := []
    headings := []
    images := []
    canonical := none
    anchors := []
    jsonLd := []
    headers := []
    tls := .error "handshake not attempted"
    loadTime := 1/2
    pageSize := 1000
    numScripts := 0
    numStylesheets := 0
    numIframes := 0
    htmlTag := none
    labelFors := []
    formControls := []
    numRoleElems := 0
    numAriaLabelElems := 0
    numMain := 0
    numNav := 0 }

/-- A 45-character title text. -/
def s45 : String := ⟨List.replicate 45 'a'⟩

/-- A 140-character meta description text. -/
def s140 : String := ⟨List.replicate 140 'b'⟩

/-- A snapshot satisfying every SEO bonus rule. -/
def snapC4 : PageSnapshot :=
  { baseSnap with
    titleTag := some (some s45)
    metaNames := [("description", some s140), ("twitter:card", some "summary")]
    metaProps := [("og:title", some "Example")]
    headings := [1, 2]
    images := [some "logo"]
    canonical := some (some "https://example.com/")
    anchors := [⟨some "/about", "About", none⟩]
    jsonLd := [some "parsed"] }

/-- A snapshot with nine of ten images carrying an alt attribute. -/
def snapC7 : PageSnapshot :=
  { baseSnap with images := List.replicate 9 (some "pic") ++ [none] }

/-- A snapshot whose title element has no direct string content. -/
def snapC10 : PageSnapshot :=
  { baseSnap with titleTag := some none }

/-- An https snapshot with no security headers and a successful TLS
handshake. -/
def snapC6 : PageSnapshot :=
  { baseSnap with
    tls := .ok ⟨"CN=example.com", "CN=TestCA", "Jan 1 2026", "Apr 1 2026"⟩ }

/-- A snapshot whose headings appear in document order `h2, h1, h3`. -/
def snapC8 : PageSnapshot :=
  { baseSnap with headings := [2, 1, 3] }

/-- A snapshot with 89 of 100 images carrying an alt attribute. -/
def snapC9 : PageSnapshot :=
  { baseSnap with images := List.replicate 89 (some "pic") ++ List.replicate 11 none }

/-- Ranker input with four Security issues and no others. -/
def catsC3 : List CatInput :=
  [⟨"Security", 0, ["a", "b", "c", "d"]⟩, ⟨"Accessibility", 100, []⟩,
   ⟨"SEO", 100, []⟩, ⟨"Performance", 100, []⟩]

/-- The four ranker inputs in their source insertion order, with the given
scores and issue lists. -/
def mkCats (ssec sacc sseo sperf : ℕ) (si ai ei pi : List String) : List CatInput :=
  [⟨"Security", ssec, si⟩, ⟨"Accessibility", sacc, ai⟩,
   ⟨"SEO", sseo, ei⟩, ⟨"Performance", sperf, pi⟩]

/-- The SEO result's issue list decomposed into its ten sub-checks. -/
lemma diagnose_seo_issues (snap : PageSnapshot) :
    (diagnose_seo snap).issues =
      (seoTitle snap).2.issues ++ ((seoMetaDescription snap).2.issues ++
      ((seoH1 snap).issues ++ ((seoH2 snap).issues ++ ((seoAlt snap).issues ++
      ((seoOpenGraph snap).issues ++ ((seoTwitter snap).issues ++
      ((seoCanonical snap).issues ++ ((seoInternalLinks snap).issues ++
      ((seoStructuredData snap).issues ++ []))))))))) := rfl

/-- The SEO result's explanation list decomposed into its ten sub-checks. -/
lemma diagnose_seo_expl (snap : PageSnapshot) :
    (diagnose_seo snap).explanations =
      (seoTitle snap).2.explanations ++ ((seoMetaDescription snap).2.explanations ++
      ((seoH1 snap).explanations ++ ((seoH2 snap).explanations ++
      ((seoAlt snap).explanations ++ ((seoOpenGraph snap).explanations ++
      ((seoTwitter snap).explanations ++ ((seoCanonical snap).explanations ++
      ((seoInternalLinks snap).explanations ++
      ((seoStructuredData snap).explanations ++ []))))))))) := rfl

/-- Every explanation the SEO analyzer attaches carries one of the seven
static labels of the explanation mapping. -/
lemma seo_expl_labels (snap : PageSnapshot) :
    ∀ ent ∈ (diagnose_seo snap).explanations,
      ent.issue ∈ ["Title length", "Title tag missing", "Meta description length",
        "Meta description missing", "H1 tag missing", "Multiple H1 tags",
        "Missing alt attributes"] := by
  intro ent hent
  rw [diagnose_seo_expl] at hent
  simp only [List.mem_append, List.append_nil, List.not_mem_nil, or_false] at hent
  rcases hent with h | h | h | h | h | h | h | h | h | h
  · unfold seoTitle at h
    split at h <;> (try simp only [] at h) <;> (try split at h) <;> (try split at h) <;>
      simp_all
  · unfold seoMetaDescription at h
    split at h <;> (try simp only [] at h) <;> (try split at h) <;> (try split at h) <;>
      simp_all
  · unfold seoH1 at h
    simp only [] at h
    split_ifs at h <;> simp_all
  · unfold seoH2 at h
    split_ifs at h <;> simp_all
  · unfold seoAlt at h
    simp only [] at h
    split_ifs at h <;> simp_all
  · unfold seoOpenGraph at h
    split_ifs at h <;> simp_all
  · unfold seoTwitter at h
    split_ifs at h <;> simp_all
  · unfold seoCanonical at h
    split_ifs at h <;> simp_all
  · unfold seoInternalLinks at h
    split_ifs at h <;> simp_all
  · unfold seoStructuredData at h
    split_ifs at h <;> simp_all

/-- Sequential numbering preserves the list length. -/
lemma numberFrom_length (p : ℕ) (l : List (String × String)) :
    (numberFrom p l).length = l.length := by
  induction l generalizing p with
  | nil => rfl
  | cons hd tl ih =>
    cases hd
    simp [numberFrom, ih]

/-- The priority of the `k`-th numbered entry is `p + k`. -/
lemma numberFrom_get_priority (l : List (String × String)) (p k : ℕ)
    (hk : k < (numberFrom p l).length) :
    ((numberFrom p l).get ⟨k, hk⟩).priority = p + k := by
  induction l generalizing p k with
  | nil => simp [numberFrom] at hk
  | cons hd tl ih =>
    cases hd
    cases k with
    | zero => rfl
    | succ k' =>
      have hk' : k' < (numberFrom (p + 1) tl).length := by
        simpa [numberFrom] using hk
      have hstep : (numberFrom p ((_, _) :: tl)).get ⟨k' + 1, hk⟩ =
          (numberFrom (p + 1) tl).get ⟨k', hk'⟩ := rfl
      rw [hstep, ih (p + 1) k' hk']
      omega

/-- The category of the `k`-th numbered entry is the tag of the `k`-th
collected issue. -/
lemma numberFrom_get_category (l : List (String × String)) (p k : ℕ)
    (hk : k < (numberFrom p l).length) (hk' : k < l.length) :
    ((numberFrom p l).get ⟨k, hk⟩).category = (l.get ⟨k, hk'⟩).1 := by
  induction l generalizing p k with
  | nil => simp [numberFrom] at hk
  | cons hd tl ih =>
    cases hd
    cases k with
    | zero => rfl
    | succ k' =>
      have h1 : k' < (numberFrom (p + 1) tl).length := by
        simpa [numberFrom] using hk
      have h2 : k' < tl.length := by simpa using hk'
      simpa [numberFrom] using ih (p + 1) k' h1 h2

/-- A category block collects at most its first three issues. -/
lemma catBlock_length (c : CatInput) : (catBlock c).length = min 3 c.issues.length := by
  unfold catBlock
  split_ifs with hc
  · simp [List.isEmpty_iff.mp hc]
  · simp

/-- The tag of every entry of a category block is the category's name. -/
lemma catBlock_fst (c : CatInput) : ∀ x ∈ catBlock c, x.1 = c.name := by
  intro x hx
  unfold catBlock at hx
  split_ifs at hx
  · simp at hx
  · simp only [List.mem_map] at hx
    obtain ⟨i, _, rfl⟩ := hx
    rfl

/-- Rank numbering of the specification's ranker preserves length. -/
lemma specNumber_length (p : ℕ) (l : List (String × String × ℚ)) :
    (specNumber p l).length = l.length := by
  induction l generalizing p with
  | nil => rfl
  | cons hd tl ih =>
    obtain ⟨c, i, q⟩ := hd
    simp [specNumber, ih]

/-- Prepending copies of a lower bound to a sorted list keeps it sorted. -/
lemma sorted_replicate_append (a m : ℕ) (l : List ℕ) (hl : List.Sorted (· ≤ ·) l)
    (ha : ∀ b ∈ l, a ≤ b) : List.Sorted (· ≤ ·) (List.replicate m a ++ l) := by
  induction m with
  | zero => simpa using hl
  | succ n ih =>
    rw [List.replicate_succ, List.cons_append, List.sorted_cons]
    refine ⟨?_, ih⟩
    intro b hb
    rcases List.mem_append.mp hb with hmem | hmem
    · rw [List.eq_of_mem_replicate hmem]
    · exact ha b hmem

/-- Points of one header check as a conditional constant. -/
lemma secHeaderCheck_pts (snap : PageSnapshot) (nm : String) (pts : ℕ) :
    (secHeaderCheck snap nm pts).pts = if truthy (headerGet snap nm) then pts else 0 := by
  unfold secHeaderCheck
  split_ifs <;> rfl

/-- The https check awards 30 points exactly on https schemes. -/
lemma secHttps_pts (snap : PageSnapshot) :
    (secHttps snap).pts = if snap.scheme == "https" then 30 else 0 := by
  unfold secHttps
  split_ifs <;> rfl

/-- The TLS sub-check never awards points. -/
lemma secTls_pts (snap : PageSnapshot) : (secTls snap).1.pts = 0 := by
  unfold secTls
  cases h : snap.tls <;> split_ifs <;> simp

/-- The security result decomposed into its three blocks. -/
lemma diagnose_security_parts (snap : PageSnapshot) :
    (diagnose_security snap).score =
      min ((secHttps snap).pts + ((secHeaders snap).pts + ((secTls snap).1.pts + 0))) 100 ∧
    (diagnose_security snap).issues =
      (secHttps snap).issues ++ ((secHeaders snap).issues ++ ((secTls snap).1.issues ++ [])) ∧
    (diagnose_security snap).success =
      (secHttps snap).success ++ ((secHeaders snap).success ++ ((secTls snap).1.success ++ [])) ∧
    (diagnose_security snap).explanations =
      (secHttps snap).explanations ++
        ((secHeaders snap).explanations ++ ((secTls snap).1.explanations ++ [])) := by
  refine ⟨rfl, rfl, rfl, rfl⟩

/-- The header loop unfolded into its seven checks (points). -/
lemma secHeaders_pts (snap : PageSnapshot) :
    (secHeaders snap).pts =
      (secHeaderCheck snap "Strict-Transport-Security" 15).pts +
      ((secHeaderCheck snap "X-Frame-Options" 10).pts +
      ((secHeaderCheck snap "X-Content-Type-Options" 10).pts +
      ((secHeaderCheck snap "X-XSS-Protection" 5).pts +
      ((secHeaderCheck snap "Content-Security-Policy" 20).pts +
      ((secHeaderCheck snap "Referrer-Policy" 5).pts +
      ((secHeaderCheck snap "Permissions-Policy" 5).pts + 0)))))) := rfl

/-- The header loop unfolded into its seven checks (issues). -/
lemma secHeaders_issues (snap : PageSnapshot) :
    (secHeaders snap).issues =
      (secHeaderCheck snap "Strict-Transport-Security" 15).issues ++
      ((secHeaderCheck snap "X-Frame-Options" 10).issues ++
      ((secHeaderCheck snap "X-Content-Type-Options" 10).issues ++
      ((secHeaderCheck snap "X-XSS-Protection" 5).issues ++
      ((secHeaderCheck snap "Content-Security-Policy" 20).issues ++
      ((secHeaderCheck snap "Referrer-Policy" 5).issues ++
      ((secHeaderCheck snap "Permissions-Policy" 5).issues ++ [])))))) := rfl

/-- The header loop unfolded into its seven checks (success entries). -/
lemma secHeaders_success (snap : PageSnapshot) :
    (secHeaders snap).success =
      (secHeaderCheck snap "Strict-Transport-Security" 15).success ++
      ((secHeaderCheck snap "X-Frame-Options" 10).success ++
      ((secHeaderCheck snap "X-Content-Type-Options" 10).success ++
      ((secHeaderCheck snap "X-XSS-Protection" 5).success ++
      ((secHeaderCheck snap "Content-Security-Policy" 20).success ++
      ((secHeaderCheck snap "Referrer-Policy" 5).success ++
      ((secHeaderCheck snap "Permissions-Policy" 5).success ++ [])))))) := rfl

/-- The header loop unfolded into its seven checks (explanations). -/
lemma secHeaders_expl (snap : PageSnapshot) :
    (secHeaders snap).explanations =
      (secHeaderCheck snap "Strict-Transport-Security" 15).explanations ++
      ((secHeaderCheck snap "X-Frame-Options" 10).explanations ++
      ((secHeaderCheck snap "X-Content-Type-Options" 10).explanations ++
      ((secHeaderCheck snap "X-XSS-Protection" 5).explanations ++
      ((secHeaderCheck snap "Content-Security-Policy" 20).explanations ++
      ((secHeaderCheck snap "Referrer-Policy" 5).explanations ++
      ((secHeaderCheck snap "Permissions-Policy" 5).explanations ++ [])))))) := rfl

/-- The TLS sub-check records no explanation. -/
lemma secTls_expl (snap : PageSnapshot) : (secTls snap).1.explanations = [] := by
  unfold secTls
  cases h : snap.tls <;> split_ifs <;> simp

/-- The TLS sub-check records no issue and a certificate success on a
successful handshake over https. -/
lemma secTls_ok (snap : PageSnapshot) (c : TlsCert) (hs : snap.scheme = "https")
    (h : snap.tls = .ok c) :
    (secTls snap).1 = ⟨0, [], ["Valid SSL certificate"], []⟩ := by
  unfold secTls
  rw [h]
  simp [hs]

/-- Every explanation the Security analyzer attaches carries one of the four
static labels (https plus the three high-impact headers). -/
lemma security_expl_labels (snap : PageSnapshot) :
    ∀ e ∈ (diagnose_security snap).explanations,
      e.issue ∈ ["HTTPS not enabled", "Strict-Transport-Security missing",
        "X-Frame-Options missing", "Content-Security-Policy missing"] := by
  intro e he
  rw [(diagnose_security_parts snap).2.2.2, secHeaders_expl, secTls_expl] at he
  simp only [List.mem_append, List.append_nil, List.not_mem_nil, or_false] at he
  rcases he with h | h | h | h | h | h | h | h
  · unfold secHttps at h
    split_ifs at h <;> simp_all
  all_goals
    unfold secHeaderCheck at h
    split_ifs at h <;> simp only [securityHeaderExpl] at h <;> simp_all

/-! Theorems. -/

/-- C1: for every diagnosis run, the overall score equals
0.3·SEO + 0.3·Security + 0.2·Performance + 0.2·Accessibility rounded to one
decimal place (the weighted sum is exact at one decimal, so Python's
half-even rounding and ordinary rounding agree). -/
theorem overall_score_weighted_formula (snap : PageSnapshot) :
    (buildResult snap).overall_score =
      ((round ((10 : ℚ) * (((diagnose_seo snap).score : ℚ) * (3/10) +
        ((diagnose_security snap).score : ℚ) * (3/10) +
        ((diagnose_performance snap).score : ℚ) * (2/10) +
        ((diagnose_accessibility snap).score : ℚ) * (2/10))) : ℤ) : ℚ) / 10 := by
  have key : ∀ s c p a : ℕ, calculate_overall_score s c p a =
      ((round ((10 : ℚ) * ((s : ℚ) * (3/10) + (c : ℚ) * (3/10) +
        (p : ℚ) * (2/10) + (a : ℚ) * (2/10))) : ℤ) : ℚ) / 10 := by
    intro s c p a
    have hx : (10 : ℚ) * ((s : ℚ) * (3/10) + (c : ℚ) * (3/10) +
        (p : ℚ) * (2/10) + (a : ℚ) * (2/10)) =
        ((3 * s + 3 * c + 2 * p + 2 * a : ℤ) : ℚ) := by
      push_cast
      ring
    have hre : ∀ n : ℤ, roundHalfEven ((n : ℤ) : ℚ) = n := by
      intro n
      unfold roundHalfEven
      norm_num
    unfold calculate_overall_score pyRound1
    rw [hx, hre, round_intCast]
  exact key _ _ _ _

/-- C2: every category score is an integer in [0, 100]: the awarded points
are a sum of nonnegative constants clamped at 100. -/
theorem category_scores_in_range (snap : PageSnapshot) :
    (diagnose_seo snap).score ≤ 100 ∧ (0 : ℤ) ≤ ((diagnose_seo snap).score : ℤ) ∧
    (diagnose_security snap).score ≤ 100 ∧ (0 : ℤ) ≤ ((diagnose_security snap).score : ℤ) ∧
    (diagnose_performance snap).score ≤ 100 ∧ (0 : ℤ) ≤ ((diagnose_performance snap).score : ℤ) ∧
    (diagnose_accessibility snap).score ≤ 100 ∧
    (0 : ℤ) ≤ ((diagnose_accessibility snap).score : ℤ) :=
  ⟨Nat.min_le_right _ _, Int.ofNat_nonneg _,
   Nat.min_le_right _ _, Int.ofNat_nonneg _,
   Nat.min_le_right _ _, Int.ofNat_nonneg _,
   Nat.min_le_right _ _, Int.ofNat_nonneg _⟩

/-- C10: a title element without direct string content is treated exactly
like a missing title: the "Title tag not found" issue is appended, the
stored title field is `None`, and the title sub-check awards no points. -/
theorem title_without_string_treated_as_absent (snap : PageSnapshot)
    (h : snap.titleTag = some none) :
    (diagnose_seo snap).title = none ∧
    "Title tag not found" ∈ (diagnose_seo snap).issues ∧
    (seoTitle snap).2.pts = 0 := by
  have hT : seoTitle snap =
      (none, ⟨0, ["Title tag not found"], [], [⟨"Title tag missing", seoTitleExpl⟩]⟩) := by
    simp [seoTitle, h]
  refine ⟨?_, ?_, ?_⟩
  · simp [diagnose_seo, hT]
  · simp [diagnose_seo, hT, combine, Contribution.append]
  · simp [hT]

/-- Witness for C10 at a concrete snapshot whose document contains a title
element wrapping no direct string. -/
theorem title_without_string_treated_as_absent_witness :
    (diagnose_seo snapC10).title = none ∧
    "Title tag not found" ∈ (diagnose_seo snapC10).issues ∧
    (seoTitle snapC10).2.pts = 0 :=
  title_without_string_treated_as_absent snapC10 rfl

/-- C7: the SEO alt-coverage tiers: with at least one image and coverage
ratio `r`, `r ≥ 0.9` awards 15 points with a success entry; `0.7 ≤ r < 0.9`
awards 10 points with an issue; `r < 0.7` awards nothing with an issue; with
no images the sub-check contributes nothing. -/
theorem seo_alt_coverage_tiers (snap : PageSnapshot) :
    (snap.images.length = 0 → seoAlt snap = ⟨0, [], [], []⟩) ∧
    (0 < snap.images.length →
      (9/10 ≤ (imagesWithAlt snap : ℚ) / (snap.images.length : ℚ) →
        seoAlt snap = ⟨15, [],
          ["Most images have alt attributes (" ++ toString (imagesWithAlt snap) ++ "/" ++
            toString snap.images.length ++ ")"], []⟩) ∧
      (7/10 ≤ (imagesWithAlt snap : ℚ) / (snap.images.length : ℚ) ∧
          (imagesWithAlt snap : ℚ) / (snap.images.length : ℚ) < 9/10 →
        seoAlt snap = ⟨10,
          ["Some images missing alt attributes (" ++ toString (imagesWithAlt snap) ++ "/" ++
            toString snap.images.length ++ ")"], [],
          [⟨"Missing alt attributes", seoAltExpl⟩]⟩) ∧
      ((imagesWithAlt snap : ℚ) / (snap.images.length : ℚ) < 7/10 →
        seoAlt snap = ⟨0,
          ["Many images missing alt attributes (" ++ toString (imagesWithAlt snap) ++ "/" ++
            toString snap.images.length ++ ")"], [],
          [⟨"Missing alt attributes", seoAltExpl⟩]⟩)) := by
  constructor
  · intro h0
    simp [seoAlt, h0]
  · intro hpos
    refine ⟨?_, ?_, ?_⟩
    · intro hr
      simp [seoAlt, hpos, hr]
    · intro hr
      simp [seoAlt, hpos, hr.1, not_le.mpr hr.2]
    · intro hr
      have h7 : ¬ (7/10 : ℚ) ≤ (imagesWithAlt snap : ℚ) / (snap.images.length : ℚ) :=
        not_le.mpr hr
      have h9 : ¬ (9/10 : ℚ) ≤ (imagesWithAlt snap : ℚ) / (snap.images.length : ℚ) :=
        not_le.mpr (lt_trans hr (by norm_num))
      simp [seoAlt, hpos, h7, h9]

/-- Witness for C7: exactly 9 of 10 images with alt lands in the top tier. -/
theorem seo_alt_coverage_tiers_witness :
    0 < snapC7.images.length ∧
    seoAlt snapC7 = ⟨15, [], ["Most images have alt attributes (9/10)"], []⟩ := by
  have hw : imagesWithAlt snapC7 = 9 := by decide
  have hl : snapC7.images.length = 10 := by decide
  have hr : 9/10 ≤ (imagesWithAlt snapC7 : ℚ) / (snapC7.images.length : ℚ) := by
    rw [hw, hl]
    simp
  have := ((seo_alt_coverage_tiers snapC7).2 (by decide)).1 hr
  refine ⟨by decide, ?_⟩
  rw [this, hw, hl]
  decide

/-- C4 counterexample: on a snapshot satisfying every SEO bonus rule
(single H1, an H2, 45-char title, 140-char meta description, full alt
coverage, OG, Twitter, canonical, internal link, JSON-LD) the analyzer
scores 95 — the rule values sum to 15+15+10+5+15+10+5+5+5+10 = 95 — and not
the claimed 100. -/
theorem seo_perfect_snapshot_counterexample :
    (diagnose_seo snapC4).score = 95 ∧ (diagnose_seo snapC4).issues = [] ∧
    (diagnose_seo snapC4).score ≠ 100 := by
  have e1 : seoTitle snapC4 =
      (some s45, ⟨15, [], ["Title tag is configured (45 chars)"], []⟩) := by decide
  have e2 : seoMetaDescription snapC4 =
      (some s140, ⟨15, [], ["Meta description is configured (140 chars)"], []⟩) := by decide
  have e3 : seoH1 snapC4 = ⟨10, [], ["Single H1 tag found"], []⟩ := by decide
  have e4 : seoH2 snapC4 = ⟨5, [], [], []⟩ := by decide
  have e5p : (seoAlt snapC4).pts = 15 ∧ (seoAlt snapC4).issues = [] := by
    have hw : imagesWithAlt snapC4 = 1 := by decide
    have hl : snapC4.images.length = 1 := by decide
    have hle : (9 : ℚ)/10 ≤ 1 := by norm_num
    constructor <;> simp [seoAlt, hw, hl, hle]
  have e6 : seoOpenGraph snapC4 = ⟨10, [], ["Open Graph tags configured"], []⟩ := by decide
  have e7 : seoTwitter snapC4 = ⟨5, [], ["Twitter Card tags configured"], []⟩ := by decide
  have e8 : seoCanonical snapC4 = ⟨5, [], ["Canonical tag configured"], []⟩ := by decide
  have e9 : seoInternalLinks snapC4 = ⟨5, [], ["Internal links found (1)"], []⟩ := by decide
  have e10 : seoStructuredData snapC4 = ⟨10, [], ["Structured data found"], []⟩ := by decide
  have hs : (diagnose_seo snapC4).score = 95 := by
    simp [diagnose_seo, combine, Contribution.append, e1, e2, e3, e4, e5p.1, e6, e7, e8,
      e9, e10]
  have hi : (diagnose_seo snapC4).issues = [] := by
    simp [diagnose_seo, combine, Contribution.append, e1, e2, e3, e4, e5p.2, e6, e7, e8,
      e9, e10]
  exact ⟨hs, hi, by rw [hs]; decide⟩

/-- C4 amended: a snapshot with exactly one H1, at least one H2, a 45-char
title, a 140-char meta description, full alt coverage over a positive number
of images, and OG, Twitter, canonical, internal link and JSON-LD all present
receives SEO score 95 (the sum of all rule values) and an empty issues
list. -/
theorem seo_perfect_snapshot_score (snap : PageSnapshot)
    (htitle : ∃ s, snap.titleTag = some (some s) ∧ s ≠ "" ∧ (strTrim s).length = 45)
    (hmeta : ∃ k c, snap.metaNames.find? (fun p => p.1 == "description") = some (k, some c) ∧
      c ≠ "" ∧ (strTrim c).length = 140)
    (hh1 : snap.headings.count 1 = 1)
    (hh2 : snap.headings.count 2 ≠ 0)
    (himg : 0 < snap.images.length)
    (halt : imagesWithAlt snap = snap.images.length)
    (hog : (ogTags snap).isEmpty = false)
    (htw : (twitterTags snap).isEmpty = false)
    (hcan : snap.canonical.isSome = true)
    (hlink : 0 < (internalLinks snap).length)
    (hsd : structuredData snap ≠ []) :
    (diagnose_seo snap).score = 95 ∧ (diagnose_seo snap).issues = [] := by
  obtain ⟨s, hts, hs0, hs45⟩ := htitle
  obtain ⟨k, c, hfind, hc0, hc140⟩ := hmeta
  have a1 : (seoTitle snap).2.pts = 15 ∧ (seoTitle snap).2.issues = [] := by
    constructor <;> simp [seoTitle, hts, hs0, hs45]
  have a2 : (seoMetaDescription snap).2.pts = 15 ∧
      (seoMetaDescription snap).2.issues = [] := by
    constructor <;> simp [seoMetaDescription, hfind, hc0, hc140]
  have a3 : (seoH1 snap).pts = 10 ∧ (seoH1 snap).issues = [] := by
    constructor <;> simp [seoH1, hh1]
  have a4 : (seoH2 snap).pts = 5 ∧ (seoH2 snap).issues = [] := by
    constructor <;> simp [seoH2, hh2]
  have hr : (9 : ℚ)/10 ≤ (imagesWithAlt snap : ℚ) / (snap.images.length : ℚ) := by
    rw [halt, div_self (Nat.cast_ne_zero.mpr (Nat.pos_iff_ne_zero.mp himg))]
    norm_num
  have a5 : (seoAlt snap).pts = 15 ∧ (seoAlt snap).issues = [] := by
    constructor <;> simp [seoAlt, himg, hr]
  have a6 : (seoOpenGraph snap).pts = 10 ∧ (seoOpenGraph snap).issues = [] := by
    constructor <;> simp [seoOpenGraph, hog]
  have a7 : (seoTwitter snap).pts = 5 ∧ (seoTwitter snap).issues = [] := by
    constructor <;> simp [seoTwitter, htw]
  have a8 : (seoCanonical snap).pts = 5 ∧ (seoCanonical snap).issues = [] := by
    constructor <;> simp [seoCanonical, hcan]
  have a9 : (seoInternalLinks snap).pts = 5 ∧ (seoInternalLinks snap).issues = [] := by
    constructor <;> simp [seoInternalLinks, hlink]
  have a10 : (seoStructuredData snap).pts = 10 ∧ (seoStructuredData snap).issues = [] := by
    constructor <;> simp [seoStructuredData, hsd]
  constructor
  · simp [diagnose_seo, combine, Contribution.append, a1.1, a2.1, a3.1, a4.1, a5.1, a6.1,
      a7.1, a8.1, a9.1, a10.1]
  · simp [diagnose_seo, combine, Contribution.append, a1.2, a2.2, a3.2, a4.2, a5.2, a6.2,
      a7.2, a8.2, a9.2, a10.2]

/-- Witness for the amended C4 at the concrete perfect snapshot. -/
theorem seo_perfect_snapshot_score_witness :
    (diagnose_seo snapC4).score = 95 ∧ (diagnose_seo snapC4).issues = [] :=
  seo_perfect_snapshot_score snapC4
    ⟨s45, rfl, by decide, by decide⟩
    ⟨"description", s140, rfl, by decide, by decide⟩
    (by decide) (by decide) (by decide) (by decide) (by decide) (by decide)
    (by decide) (by decide) (by decide)

/-- C6: the seven security headers award 15, 10, 10, 5, 20, 5, 5 points when
present; every absent header appends an issue; explanations are attached
exactly for Strict-Transport-Security, X-Frame-Options and
Content-Security-Policy; and an https snapshot with all seven headers absent
and a successful TLS handshake scores 30 with 7 issues and the TLS success
recorded. -/
theorem security_header_scoring (snap : PageSnapshot) :
    (diagnose_security snap).score =
      min ((if snap.scheme == "https" then 30 else 0) +
        ((if truthy (headerGet snap "Strict-Transport-Security") then 15 else 0) +
        ((if truthy (headerGet snap "X-Frame-Options") then 10 else 0) +
        ((if truthy (headerGet snap "X-Content-Type-Options") then 10 else 0) +
        ((if truthy (headerGet snap "X-XSS-Protection") then 5 else 0) +
        ((if truthy (headerGet snap "Content-Security-Policy") then 20 else 0) +
        ((if truthy (headerGet snap "Referrer-Policy") then 5 else 0) +
        ((if truthy (headerGet snap "Permissions-Policy") then 5 else 0) + 0)))))))) 100 ∧
    (∀ nm pts, (nm, pts) ∈ securityHeaderNames →
      (truthy (headerGet snap nm) = true →
        (nm ++ " header configured") ∈ (diagnose_security snap).success) ∧
      (truthy (headerGet snap nm) = false →
        (nm ++ " header not set") ∈ (diagnose_security snap).issues)) ∧
    (truthy (headerGet snap "Strict-Transport-Security") = false →
      ExplEntry.mk "Strict-Transport-Security missing" secStsExpl ∈
        (diagnose_security snap).explanations) ∧
    (truthy (headerGet snap "X-Frame-Options") = false →
      ExplEntry.mk "X-Frame-Options missing" secXfoExpl ∈
        (diagnose_security snap).explanations) ∧
    (truthy (headerGet snap "Content-Security-Policy") = false →
      ExplEntry.mk "Content-Security-Policy missing" secCspExpl ∈
        (diagnose_security snap).explanations) ∧
    (∀ e ∈ (diagnose_security snap).explanations,
      e.issue ∈ ["HTTPS not enabled", "Strict-Transport-Security missing",
        "X-Frame-Options missing", "Content-Security-Policy missing"]) ∧
    (snap.scheme = "https" →
      (∀ nm pts, (nm, pts) ∈ securityHeaderNames → truthy (headerGet snap nm) = false) →
      ∀ c, snap.tls = .ok c →
        (diagnose_security snap).score = 30 ∧
        (diagnose_security snap).issues.length = 7 ∧
        "Valid SSL certificate" ∈ (diagnose_security snap).success ∧
        "HTTPS enabled" ∈ (diagnose_security snap).success) := by
  obtain ⟨hsc, his, hsu, hex⟩ := diagnose_security_parts snap
  refine ⟨?_, ?_, ?_, ?_, ?_, security_expl_labels snap, ?_⟩
  · rw [hsc, secHeaders_pts, secHttps_pts, secTls_pts]
    simp only [secHeaderCheck_pts]
    omega
  · intro nm pts hmem
    simp only [securityHeaderNames, List.mem_cons, List.not_mem_nil, or_false] at hmem
    rcases hmem with h | h | h | h | h | h | h <;>
      (rw [Prod.mk.injEq] at h; obtain ⟨rfl, rfl⟩ := h) <;>
      constructor <;> intro ht
    all_goals simp only [hsu, his, secHeaders_success, secHeaders_issues]
    all_goals simp [secHeaderCheck, ht]
  · intro ht
    rw [hex, secHeaders_expl]
    simp [secHeaderCheck, securityHeaderExpl, ht]
  · intro ht
    rw [hex, secHeaders_expl]
    simp [secHeaderCheck, securityHeaderExpl, ht]
  · intro ht
    rw [hex, secHeaders_expl]
    simp [secHeaderCheck, securityHeaderExpl, ht]
  · intro hhttps habs c htls
    have h1 := habs "Strict-Transport-Security" 15 (by simp [securityHeaderNames])
    have h2 := habs "X-Frame-Options" 10 (by simp [securityHeaderNames])
    have h3 := habs "X-Content-Type-Options" 10 (by simp [securityHeaderNames])
    have h4 := habs "X-XSS-Protection" 5 (by simp [securityHeaderNames])
    have h5 := habs "Content-Security-Policy" 20 (by simp [securityHeaderNames])
    have h6 := habs "Referrer-Policy" 5 (by simp [securityHeaderNames])
    have h7 := habs "Permissions-Policy" 5 (by simp [securityHeaderNames])
    have htlsc := secTls_ok snap c hhttps htls
    refine ⟨?_, ?_, ?_, ?_⟩
    · rw [hsc, secHeaders_pts, secHttps_pts, secTls_pts]
      simp only [secHeaderCheck_pts, h1, h2, h3, h4, h5, h6, h7, hhttps]
      decide
    · rw [his, secHeaders_issues, htlsc]
      simp [secHttps, secHeaderCheck, h1, h2, h3, h4, h5, h6, h7, hhttps]
    · rw [hsu, htlsc]
      simp
    · rw [hsu, secHeaders_success, htlsc]
      simp [secHttps, hhttps]

/-- Witness for C6: the concrete https snapshot with no security headers and
a valid certificate. -/
theorem security_header_scoring_witness :
    (diagnose_security snapC6).score = 30 ∧
    (diagnose_security snapC6).issues.length = 7 ∧
    "Valid SSL certificate" ∈ (diagnose_security snapC6).success ∧
    "HTTPS enabled" ∈ (diagnose_security snapC6).success := by
  refine (security_header_scoring snapC6).2.2.2.2.2.2 rfl ?_ _ rfl
  intro nm pts h
  simp only [securityHeaderNames, List.mem_cons, List.not_mem_nil, or_false] at h
  rcases h with h | h | h | h | h | h | h <;>
    (rw [Prod.mk.injEq] at h; obtain ⟨rfl, rfl⟩ := h) <;> decide

/-- C5 counterexample: on a failed fetch the engine returns normally with
`None`; it does not raise (propagate) the fetch error, so no `FetchError`
crosses the engine boundary. -/
theorem fetch_failure_returns_none_counterexample :
    run_diagnosis (Except.error ⟨"connection timed out"⟩) = Except.ok none := rfl

/-- C5 amended: on a fetch failure the engine catches the exception and
returns `None` (no partial result); on success it returns a result built
from all four analyzers; a TLS sub-check failure is absorbed into a scored
issue and never escapes. -/
theorem engine_boundary_behavior (fetch : Except FetchError PageSnapshot) :
    (∀ e, fetch = .error e → run_diagnosis fetch = .ok none) ∧
    (∀ snap, fetch = .ok snap →
      run_diagnosis fetch = .ok (some (buildResult snap)) ∧
      (buildResult snap).seo = diagnose_seo snap ∧
      (buildResult snap).security = diagnose_security snap ∧
      (buildResult snap).performance = diagnose_performance snap ∧
      (buildResult snap).accessibility = diagnose_accessibility snap) ∧
    (∀ snap e, fetch = .ok snap → snap.scheme = "https" → snap.tls = .error e →
      ("SSL certificate check failed: " ++ e) ∈ (diagnose_security snap).issues) := by
  refine ⟨?_, ?_, ?_⟩
  · intro e he
    rw [he]
    rfl
  · intro snap hs
    rw [hs]
    exact ⟨rfl, rfl, rfl, rfl, rfl⟩
  · intro snap e _ hhttps htls
    have hfail : (secTls snap).1 = ⟨0, ["SSL certificate check failed: " ++ e], [], []⟩ := by
      unfold secTls
      rw [htls]
      simp [hhttps]
    rw [(diagnose_security_parts snap).2.1, hfail]
    simp

/-- Witness for the amended C5: a concrete failed fetch yields `ok none`, a
concrete successful fetch yields the full result, and the TLS failure of the
base snapshot is recorded as an issue. -/
theorem engine_boundary_behavior_witness :
    run_diagnosis (Except.error ⟨"timeout"⟩) = Except.ok none ∧
    run_diagnosis (Except.ok baseSnap) = Except.ok (some (buildResult baseSnap)) ∧
    ("SSL certificate check failed: handshake not attempted") ∈
      (diagnose_security baseSnap).issues :=
  ⟨(engine_boundary_behavior (Except.error ⟨"timeout"⟩)).1 ⟨"timeout"⟩ rfl,
   ((engine_boundary_behavior (Except.ok baseSnap)).2.1 baseSnap rfl).1,
   (engine_boundary_behavior (Except.ok baseSnap)).2.2 baseSnap
     "handshake not attempted" rfl rfl rfl⟩

/-- C8 counterexample: for document order `h2, h1, h3` the document-order
sequence has the adjacent jump `h1 → h3` (greater than +1), so the claim
demands an issue and no credit — but the analyzer examines the level-grouped
sequence `[1,2,3]` and awards +10 with a success entry. -/
theorem heading_document_order_counterexample :
    hasSkip snapC8.headings = true ∧
    specHeadingCheckDocumentOrder snapC8 =
      ⟨0, ["Heading hierarchy issues (e.g., h4 after h2)"], [], []⟩ ∧
    accHeadingCheck snapC8 = ⟨10, [], ["Proper heading hierarchy"], []⟩ := by
  refine ⟨by decide, by decide, by decide⟩

/-- C8 amended: the analyzer examines the heading levels sorted ascending by
level (the grouped `h1 … h6` traversal), not in document order: its verdict
equals the document-order tiers applied to the sorted level sequence. -/
theorem heading_check_uses_sorted_levels (snap : PageSnapshot)
    (h : ∀ x ∈ snap.headings, 1 ≤ x ∧ x ≤ 6) :
    headingsOrder snap = List.insertionSort (· ≤ ·) snap.headings ∧
    accHeadingCheck snap = headingTiers (List.insertionSort (· ≤ ·) snap.headings) := by
  have hrange : List.range' 1 6 = [1, 2, 3, 4, 5, 6] := by decide
  have hrep : headingsOrder snap =
      List.replicate (snap.headings.count 1) 1 ++
      (List.replicate (snap.headings.count 2) 2 ++
      (List.replicate (snap.headings.count 3) 3 ++
      (List.replicate (snap.headings.count 4) 4 ++
      (List.replicate (snap.headings.count 5) 5 ++
      (List.replicate (snap.headings.count 6) 6 ++ []))))) := by
    rw [headingsOrder, hrange]
    simp [List.filter_eq]
  have hperm : (headingsOrder snap).Perm snap.headings := by
    rw [List.perm_iff_count]
    intro n
    rw [hrep]
    simp only [List.count_append, List.count_replicate, List.count_nil]
    by_cases h1 : n = 1
    · subst h1; simp
    by_cases h2 : n = 2
    · subst h2; simp
    by_cases h3 : n = 3
    · subst h3; simp
    by_cases h4 : n = 4
    · subst h4; simp
    by_cases h5 : n = 5
    · subst h5; simp
    by_cases h6 : n = 6
    · subst h6; simp
    have hnot : n ∉ snap.headings := fun hn => by
      have := h n hn
      omega
    rw [List.count_eq_zero_of_not_mem hnot]
    simp only [beq_iff_eq]
    split_ifs <;> omega
  have hsorted : List.Sorted (· ≤ ·) (headingsOrder snap) := by
    rw [hrep]
    have s6 : List.Sorted (· ≤ ·)
        (List.replicate (snap.headings.count 6) 6 ++ ([] : List ℕ)) :=
      sorted_replicate_append 6 _ _ (by simp) (by simp)
    have s5 := sorted_replicate_append 5 (snap.headings.count 5) _ s6 (by
      intro b hb
      simp only [List.mem_append, List.mem_replicate, List.not_mem_nil, or_false] at hb
      omega)
    have s4 := sorted_replicate_append 4 (snap.headings.count 4) _ s5 (by
      intro b hb
      simp only [List.mem_append, List.mem_replicate, List.not_mem_nil, or_false] at hb
      omega)
    have s3 := sorted_replicate_append 3 (snap.headings.count 3) _ s4 (by
      intro b hb
      simp only [List.mem_append, List.mem_replicate, List.not_mem_nil, or_false] at hb
      omega)
    have s2 := sorted_replicate_append 2 (snap.headings.count 2) _ s3 (by
      intro b hb
      simp only [List.mem_append, List.mem_replicate, List.not_mem_nil, or_false] at hb
      omega)
    exact sorted_replicate_append 1 (snap.headings.count 1) _ s2 (by
      intro b hb
      simp only [List.mem_append, List.mem_replicate, List.not_mem_nil, or_false] at hb
      omega)
  have hmain : headingsOrder snap = List.insertionSort (· ≤ ·) snap.headings := by
    refine List.eq_of_perm_of_sorted ?_ hsorted (List.sorted_insertionSort _ _)
    exact hperm.trans (List.perm_insertionSort _ _).symm
  exact ⟨hmain, congrArg headingTiers hmain⟩

/-- Witness for the amended C8 at the concrete `h2, h1, h3` snapshot. -/
theorem heading_check_uses_sorted_levels_witness :
    headingsOrder snapC8 = List.insertionSort (· ≤ ·) snapC8.headings ∧
    accHeadingCheck snapC8 = headingTiers (List.insertionSort (· ≤ ·) snapC8.headings) :=
  heading_check_uses_sorted_levels snapC8 (by decide)

/-- C9 counterexample: for 89 of 100 images with alt, the raw issue keeps
its numeric suffix `89/100`, but the attached explanation entry carries the
fixed label "Missing alt attributes", which does not retain that suffix —
no substring matching or replacement over the raw phrase happens. -/
theorem localizer_fixed_label_counterexample :
    seoAlt snapC9 = ⟨10, ["Some images missing alt attributes (89/100)"], [],
      [⟨"Missing alt attributes", seoAltExpl⟩]⟩ ∧
    strContainsSub "Some images missing alt attributes (89/100)" "89/100" = true ∧
    strContainsSub "Missing alt attributes" "89/100" = false := by
  refine ⟨?_, by decide, by decide⟩
  have hw : imagesWithAlt snapC9 = 89 := by decide
  have hl : snapC9.images.length = 100 := by decide
  have h9 : ¬ (9/10 : ℚ) ≤ (89 : ℚ) / 100 := by norm_num
  have h7 : (7/10 : ℚ) ≤ (89 : ℚ) / 100 := by norm_num
  have hr9 : ¬ (9/10 : ℚ) ≤ (imagesWithAlt snapC9 : ℚ) / (snapC9.images.length : ℚ) := by
    rw [hw, hl]
    push_cast
    exact h9
  have hr7 : (7/10 : ℚ) ≤ (imagesWithAlt snapC9 : ℚ) / (snapC9.images.length : ℚ) := by
    rw [hw, hl]
    push_cast
    exact h7
  have := (by simp [seoAlt, (by decide : 0 < snapC9.images.length), hr9, hr7] :
    seoAlt snapC9 = ⟨10, ["Some images missing alt attributes (" ++
      toString (imagesWithAlt snapC9) ++ "/" ++ toString snapC9.images.length ++ ")"], [],
      [⟨"Missing alt attributes", seoAltExpl⟩]⟩)
  rw [this, hw, hl]
  decide

/-- C9 amended: explanations are attached by fixed per-check keys, not by
text matching: every SEO explanation label belongs to the static seven-label
set; in the middle alt tier the attached entry is exactly the fixed
"Missing alt attributes" record while the raw message with its numeric
counts is kept unchanged in the issues list; an issue without a mapped
explanation (such as a missing H2) is kept as raw text with no entry. -/
theorem explanation_lookup_is_static (snap : PageSnapshot) :
    (∀ ent ∈ (diagnose_seo snap).explanations,
      ent.issue ∈ ["Title length", "Title tag missing", "Meta description length",
        "Meta description missing", "H1 tag missing", "Multiple H1 tags",
        "Missing alt attributes"]) ∧
    (0 < snap.images.length →
      7/10 ≤ (imagesWithAlt snap : ℚ) / (snap.images.length : ℚ) →
      (imagesWithAlt snap : ℚ) / (snap.images.length : ℚ) < 9/10 →
      ("Some images missing alt attributes (" ++ toString (imagesWithAlt snap) ++ "/" ++
          toString snap.images.length ++ ")") ∈ (diagnose_seo snap).issues ∧
      ExplEntry.mk "Missing alt attributes" seoAltExpl ∈ (diagnose_seo snap).explanations) ∧
    (snap.headings.count 2 = 0 → "H2 tag not found" ∈ (diagnose_seo snap).issues) := by
  refine ⟨seo_expl_labels snap, ?_, ?_⟩
  · intro hpos h7 h9
    have halt : seoAlt snap = ⟨10,
        ["Some images missing alt attributes (" ++ toString (imagesWithAlt snap) ++ "/" ++
          toString snap.images.length ++ ")"], [],
        [⟨"Missing alt attributes", seoAltExpl⟩]⟩ := by
      simp [seoAlt, hpos, h7, not_le.mpr h9]
    constructor
    · rw [diagnose_seo_issues, halt]
      simp
    · rw [diagnose_seo_expl, halt]
      simp
  · intro h2
    have hh2 : seoH2 snap = ⟨0, ["H2 tag not found"], [], []⟩ := by
      simp [seoH2, h2]
    rw [diagnose_seo_issues, hh2]
    simp

/-- Witness for the amended C9 at the 89-of-100 snapshot. -/
theorem explanation_lookup_is_static_witness :
    ("Some images missing alt attributes (89/100)") ∈ (diagnose_seo snapC9).issues ∧
    ExplEntry.mk "Missing alt attributes" seoAltExpl ∈ (diagnose_seo snapC9).explanations ∧
    "H2 tag not found" ∈ (diagnose_seo snapC9).issues := by
  have hw : imagesWithAlt snapC9 = 89 := by decide
  have hl : snapC9.images.length = 100 := by decide
  have hmid := (explanation_lookup_is_static snapC9).2.1 (by decide)
    (by rw [hw, hl]; push_cast; norm_num)
    (by rw [hw, hl]; push_cast; norm_num)
  have hh2 := (explanation_lookup_is_static snapC9).2.2 (by decide)
  refine ⟨?_, hmid.2, hh2⟩
  have := hmid.1
  rw [hw, hl] at this
  convert this using 2

/-- C3 counterexample: with four Security issues (category scored 0) and
none elsewhere, the specification's ranker (pool every issue with the
priority formula, sort, top 10) returns four entries, but the code's ranker
returns three — it keeps at most the first three issues per category and
uses no priority formula. -/
theorem ranker_priority_formula_counterexample :
    (recTop catsC3).length = 3 ∧ (specRankerTop10 catsC3).length = 4 := by
  constructor
  · decide
  · have hpool : (specPool catsC3).length = 4 := rfl
    have hperm := List.perm_insertionSort specGe (specPool catsC3)
    unfold specRankerTop10
    rw [specNumber_length, List.length_take, hperm.length_eq, hpool]
    decide

/-- C3 amended: the code's ranker sorts the four categories ascending by
score (stable, insertion order Security, Accessibility, SEO, Performance on
ties), keeps at most the first three issues of each category in that order,
numbers them sequentially from 1, and renders the first ten; with Security
scored 30 and SEO scored 55, every Security entry ranks above (receives a
smaller priority number than) every SEO entry. -/
theorem ranker_sorts_categories_by_score (ssec sacc sseo sperf : ℕ)
    (si ai ei pi : List String) :
    (∀ k (hk : k < (rankIssues (mkCats ssec sacc sseo sperf si ai ei pi)).length),
      ((rankIssues (mkCats ssec sacc sseo sperf si ai ei pi)).get ⟨k, hk⟩).priority =
        k + 1) ∧
    ((recTop (mkCats ssec sacc sseo sperf si ai ei pi)).length =
      min 10 (min 3 si.length + min 3 ai.length + min 3 ei.length + min 3 pi.length)) ∧
    (ssec = 30 → sseo = 55 →
      ∀ e₁ ∈ rankIssues (mkCats ssec sacc sseo sperf si ai ei pi),
      ∀ e₂ ∈ rankIssues (mkCats ssec sacc sseo sperf si ai ei pi),
        e₁.category = "Security" → e₂.category = "SEO" →
        e₁.priority < e₂.priority) := by
  refine ⟨?_, ?_, ?_⟩
  · intro k hk
    exact (numberFrom_get_priority
      (((categoriesSorted (mkCats ssec sacc sseo sperf si ai ei pi)).map catBlock).flatten)
      1 k hk).trans (Nat.add_comm 1 k)
  · have h1 : (recTop (mkCats ssec sacc sseo sperf si ai ei pi)).length =
        min 10 (rankIssues (mkCats ssec sacc sseo sperf si ai ei pi)).length :=
      List.length_take _ _
    have h2 : (rankIssues (mkCats ssec sacc sseo sperf si ai ei pi)).length =
        (((categoriesSorted (mkCats ssec sacc sseo sperf si ai ei pi)).map
          catBlock).flatten).length :=
      numberFrom_length 1 _
    have hperm : (categoriesSorted (mkCats ssec sacc sseo sperf si ai ei pi)).Perm
        (mkCats ssec sacc sseo sperf si ai ei pi) :=
      List.perm_insertionSort _ _
    have h5 : ((categoriesSorted (mkCats ssec sacc sseo sperf si ai ei pi)).map
          (fun c => (catBlock c).length)).sum =
        ((mkCats ssec sacc sseo sperf si ai ei pi).map
          (fun c => (catBlock c).length)).sum :=
      (hperm.map _).sum_eq
    have h6 : ((mkCats ssec sacc sseo sperf si ai ei pi).map
          (fun c => (catBlock c).length)).sum =
        min 3 si.length + (min 3 ai.length + (min 3 ei.length + (min 3 pi.length + 0))) := by
      simp [mkCats, catBlock_length]
    rw [h1, h2, List.length_flatten, List.map_map]
    have h4 : (List.length ∘ catBlock) = fun c : CatInput => (catBlock c).length := rfl
    rw [h4, h5, h6]
    omega
  · intro h30 h55 e₁ he₁ e₂ he₂ hc₁ hc₂
    subst h30
    subst h55
    have hsorted : List.Sorted catLe
        (categoriesSorted (mkCats 30 sacc 55 sperf si ai ei pi)) :=
      List.sorted_insertionSort _ _
    have hperm : (categoriesSorted (mkCats 30 sacc 55 sperf si ai ei pi)).Perm
        (mkCats 30 sacc 55 sperf si ai ei pi) :=
      List.perm_insertionSort _ _
    have hP : List.Pairwise
        (fun c₁ c₂ : CatInput => ¬(c₁.name = "SEO" ∧ c₂.name = "Security"))
        (categoriesSorted (mkCats 30 sacc 55 sperf si ai ei pi)) := by
      refine hsorted.imp_of_mem ?_
      intro c₁ c₂ h₁ h₂ hle hcon
      obtain ⟨hn₁, hn₂⟩ := hcon
      have hm₁ : c₁ ∈ mkCats 30 sacc 55 sperf si ai ei pi := hperm.subset h₁
      have hm₂ : c₂ ∈ mkCats 30 sacc 55 sperf si ai ei pi := hperm.subset h₂
      simp only [mkCats, List.mem_cons, List.not_mem_nil, or_false] at hm₁ hm₂
      rcases hm₁ with rfl | rfl | rfl | rfl <;> rcases hm₂ with rfl | rfl | rfl | rfl <;>
        simp_all [catLe]
    have hQ : List.Pairwise
        (fun x y : String × String => ¬(x.1 = "SEO" ∧ y.1 = "Security"))
        (((categoriesSorted (mkCats 30 sacc 55 sperf si ai ei pi)).map
          catBlock).flatten) := by
      rw [List.pairwise_flatten]
      constructor
      · intro l hl
        simp only [List.mem_map] at hl
        obtain ⟨c, hc, rfl⟩ := hl
        refine List.pairwise_of_forall_mem_list ?_
        intro x hx y hy hcon
        obtain ⟨h1, h2⟩ := hcon
        have e1 : c.name = "SEO" := (catBlock_fst c x hx).symm.trans h1
        have e2 : c.name = "Security" := (catBlock_fst c y hy).symm.trans h2
        exact absurd (e1.symm.trans e2) (by decide)
      · rw [List.pairwise_map]
        refine hP.imp ?_
        intro c₁ c₂ hnc
        intro x hx y hy hcon
        exact hnc ⟨(catBlock_fst c₁ x hx).symm.trans hcon.1,
          (catBlock_fst c₂ y hy).symm.trans hcon.2⟩
    have hrank : rankIssues (mkCats 30 sacc 55 sperf si ai ei pi) =
        numberFrom 1 (((categoriesSorted (mkCats 30 sacc 55 sperf si ai ei pi)).map
          catBlock).flatten) := rfl
    rw [hrank] at he₁ he₂
    obtain ⟨⟨k₁, hk₁⟩, hget₁⟩ := List.mem_iff_get.mp he₁
    obtain ⟨⟨k₂, hk₂⟩, hget₂⟩ := List.mem_iff_get.mp he₂
    have hk₁' : k₁ < (((categoriesSorted (mkCats 30 sacc 55 sperf si ai ei pi)).map
        catBlock).flatten).length := by
      rw [← numberFrom_length 1]
      exact hk₁
    have hk₂' : k₂ < (((categoriesSorted (mkCats 30 sacc 55 sperf si ai ei pi)).map
        catBlock).flatten).length := by
      rw [← numberFrom_length 1]
      exact hk₂
    have hcL₁ : ((((categoriesSorted (mkCats 30 sacc 55 sperf si ai ei pi)).map
        catBlock).flatten).get ⟨k₁, hk₁'⟩).1 = "Security" := by
      rw [← numberFrom_get_category _ 1 k₁ hk₁ hk₁', hget₁]
      exact hc₁
    have hcL₂ : ((((categoriesSorted (mkCats 30 sacc 55 sperf si ai ei pi)).map
        catBlock).flatten).get ⟨k₂, hk₂'⟩).1 = "SEO" := by
      rw [← numberFrom_get_category _ 1 k₂ hk₂ hk₂', hget₂]
      exact hc₂
    have hp₁ : e₁.priority = 1 + k₁ := by
      rw [← hget₁, numberFrom_get_priority]
    have hp₂ : e₂.priority = 1 + k₂ := by
      rw [← hget₂, numberFrom_get_priority]
    rcases lt_trichotomy k₁ k₂ with hlt | heq | hgt
    · omega
    · subst heq
      have : e₁ = e₂ := by rw [← hget₁, ← hget₂]
      rw [this] at hc₁
      rw [hc₁] at hc₂
      exact absurd hc₂ (by decide)
    · exact absurd ⟨hcL₂, hcL₁⟩
        (List.pairwise_iff_get.mp hQ ⟨k₂, hk₂'⟩ ⟨k₁, hk₁'⟩ hgt)

/-- Witness for the amended C3: with scores Security 30, Accessibility 90,
SEO 55, Performance 80 and one issue each for Security and SEO, the Security
entry receives priority 1 and the SEO entry priority 2. -/
theorem ranker_sorts_categories_by_score_witness :
    ((rankIssues (mkCats 30 90 55 80 ["s1"] [] ["e1"] [])).get ⟨0, by decide⟩).priority =
      0 + 1 ∧
    (recTop (mkCats 30 90 55 80 ["s1"] [] ["e1"] [])).length =
      min 10 (min 3 (["s1"] : List String).length + min 3 ([] : List String).length +
        min 3 (["e1"] : List String).length + min 3 ([] : List String).length) ∧
    (⟨1, "Security", "s1"⟩ : RecEntry).priority < (⟨2, "SEO", "e1"⟩ : RecEntry).priority :=
  ⟨(ranker_sorts_categories_by_score 30 90 55 80 ["s1"] [] ["e1"] []).1 0 (by decide),
   (ranker_sorts_categories_by_score 30 90 55 80 ["s1"] [] ["e1"] []).2.1,
   (ranker_sorts_categories_by_score 30 90 55 80 ["s1"] [] ["e1"] []).2.2 rfl rfl
     ⟨1, "Security", "s1"⟩ (by decide) ⟨2, "SEO", "e1"⟩ (by decide) rfl rfl⟩

end Diag
